import Mathlib

/-!
# Verification of the mermaid-conversion-service cache and dimension planner

A shallow embedding of `src/src/utils/cacheHelper.js` (class `CacheHelper`)
and of `MermaidService.calculateOptimalDimensions` /
`MermaidService.estimateNestingLevel` (file `src/unnamed/part_007`).

Modelling conventions:
* JavaScript `Map` is an association list with unique keys kept in insertion
  order; `Map.set` replaces in place, `Map.delete` filters, `Map.size` is the
  list length.
* The durable store (the cache directory) is an association list from file
  path to byte list.  `fs.writeFile` always succeeds in the model;
  `fs.unlink` and `fs.access` fail exactly when the path is absent, which is
  the `ENOENT` failure mode the claims are about.  `fs.readFile` additionally
  takes an explicit success flag (`readOk`) because the race it models — the
  artifact vanishing between the `fs.access` check and the read — is not a
  function of the modelled state.
* Time is an integer number of milliseconds, passed explicitly (`now`) where
  the source calls `Date.now()`.
* JavaScript numbers are embedded as `Rat` (exact arithmetic); none of the
  comparisons in the verified claims are at a float/rational boundary.
* `crypto.createHash('md5')...digest('hex')` is embedded as the identity on
  the hash input string: the spec allows treating md5 as injective
  (negligible collision probability), so the digest is modelled by the string
  it digests.
-/

namespace MermaidConv

/-- JavaScript `\s` on the ASCII range (space, tab, LF, VT, FF, CR). -/
def jsIsSpace (c : Char) : Bool :=
  c = ' ' || c = '\t' || c = '\n' || c = '\x0b' || c = '\x0c' || c = '\r'

/-- JavaScript `String.prototype.trim` (ASCII whitespace). -/
def jsTrim (s : String) : String :=
  ⟨((s.toList.dropWhile jsIsSpace).reverse.dropWhile jsIsSpace).reverse⟩

/-- JavaScript `String.prototype.includes`: substring containment. -/
def jsIncludes (s pat : String) : Bool :=
  decide (pat.toList <:+: s.toList)

/-- JavaScript `s.startsWith(p)`. -/
def jsStartsWith (s pat : String) : Bool :=
  pat.toList.isPrefixOf s.toList

/-- Splitting a character list at every occurrence of `c`, keeping empty
pieces — the behaviour of a JavaScript `split` with a one-character
separator. -/
def splitCharAux (c : Char) : List Char → List Char → List String
  | [], acc => [⟨acc.reverse⟩]
  | x :: rest, acc =>
      if x = c then ⟨acc.reverse⟩ :: splitCharAux c rest []
      else splitCharAux c rest (x :: acc)

/-- JavaScript `s.split('\n')`. -/
def jsSplitLines (s : String) : List String :=
  splitCharAux '\n' s.toList []

namespace CacheHelper

/-- Byte buffers (`Buffer`) as lists of bytes. -/
abbrev Bytes := List Nat

/-- The value stored in `cacheIndex.items`: `{ timestamp, filePath }`. -/
structure Entry where
  timestamp : Int
  filePath : String
  deriving DecidableEq, Repr

/-- Lookup in a string-keyed association list: first value bound to `k`.
Used for `Map.get` on the index and for `fs.readFile` / the presence test of
`fs.access` and `fs.unlink` on the durable store. -/
def assocGet {α : Type} : List (String × α) → String → Option α
  | [], _ => none
  | (k', v) :: rest, k => if k' = k then some v else assocGet rest k

/-- Update in a string-keyed association list: replace in place when bound,
else append — the insertion-order semantics of `Map.set`, and overwrite
semantics of `fs.writeFile`. -/
def assocSet {α : Type} : List (String × α) → String → α → List (String × α)
  | [], k, v => [(k, v)]
  | (k', v') :: rest, k, v =>
      if k' = k then (k, v) :: rest else (k', v') :: assocSet rest k v

/-- Removal from a string-keyed association list: `Map.delete` on the index,
the effect of a successful `fs.unlink` on the store. -/
def assocDelete {α : Type} (m : List (String × α)) (k : String) :
    List (String × α) :=
  m.filter fun p => p.1 ≠ k

/-- `Map.get`. -/
def mapGet (m : List (String × Entry)) (k : String) : Option Entry :=
  assocGet m k

/-- `Map.has`. -/
def mapHas (m : List (String × Entry)) (k : String) : Bool :=
  (mapGet m k).isSome

/-- `Map.set`. -/
def mapSet (m : List (String × Entry)) (k : String) (v : Entry) :
    List (String × Entry) :=
  assocSet m k v

/-- `Map.delete`. -/
def mapDelete (m : List (String × Entry)) (k : String) : List (String × Entry) :=
  assocDelete m k

/-- File-system lookup (`fs.readFile` / presence for `fs.access`, `fs.unlink`). -/
def fsGet (fs : List (String × Bytes)) (p : String) : Option Bytes :=
  assocGet fs p

/-- `fs.writeFile`: overwrite in place or append. -/
def fsWrite (fs : List (String × Bytes)) (p : String) (b : Bytes) :
    List (String × Bytes) :=
  assocSet fs p b

/-- `fs.unlink` effect on the store (failure is decided by `fsGet`). -/
def fsRemove (fs : List (String × Bytes)) (p : String) : List (String × Bytes) :=
  assocDelete fs p

/-- The cache directory constant (`path.join(__dirname, '../../temp/cache')`).
Only its role as a common prefix matters. -/
def cacheDir : String := "temp/cache"

/-- `path.join(cacheDir, hash + '.png')`. -/
def cachePath (hash : String) : String :=
  cacheDir ++ "/" ++ hash ++ ".png"

/-- The mutable state of a `CacheHelper` instance together with the durable
store: configuration fields fixed by the constructor, `cacheIndex.items`,
`cacheIndex.accessOrder`, and the cache directory contents. -/
structure State where
  maxCacheSize : Int
  cacheTTL : Int
  items : List (String × Entry)
  accessOrder : List String
  files : List (String × Bytes)
  deriving DecidableEq, Repr

/-- JavaScript `options.x || default` for a numeric option: `undefined` and
`0` are falsy and select the default. -/
def jsOrInt (v : Option Int) (d : Int) : Int :=
  match v with
  | none => d
  | some x => if x = 0 then d else x

/-- The constructor: `maxCacheSize = options.maxCacheSize || 100`,
`cacheTTL = options.cacheTTL || 24*60*60*1000`.  It contains no validation
and no `throw`; the model starts from an empty index and an empty store
(`initializeCache` on a fresh directory). -/
def mkState (maxCacheSize? cacheTTL? : Option Int) : State :=
  { maxCacheSize := jsOrInt maxCacheSize? 100
    cacheTTL := jsOrInt cacheTTL? (24 * 60 * 60 * 1000)
    items := []
    accessOrder := []
    files := [] }

/-- `removeOldestCacheItem`: shift the head of `accessOrder`; then inside
`try`, read `items.get(oldestHash).filePath` (a `TypeError` caught by the
`catch` when the hash is no longer in `items`), `fs.unlink` it (failing when
the file is absent, also caught), and only on success `items.delete`. -/
def removeOldestCacheItem (s : State) : State :=
  match s.accessOrder with
  | [] => s
  | oldestHash :: rest =>
      let s := { s with accessOrder := rest }
      match mapGet s.items oldestHash with
      | none => s
      | some e =>
          match fsGet s.files e.filePath with
          | none => s
          | some _ =>
              { s with
                files := fsRemove s.files e.filePath
                items := mapDelete s.items oldestHash }

/-- `cacheItem(hash, buffer)`: write the artifact, `items.set`, push the hash
onto `accessOrder` (unconditionally, even when already present), then evict
once if `items.size > maxCacheSize`.  `writeOk` is whether `fs.writeFile`
succeeds; on failure the `catch` returns `false` with nothing changed. -/
def cacheItem (s : State) (hash : String) (buffer : Bytes) (now : Int)
    (writeOk : Bool) : Bool × State :=
  if writeOk then
    let filePath := cachePath hash
    let s := { s with
      files := fsWrite s.files filePath buffer
      items := mapSet s.items hash ⟨now, filePath⟩
      accessOrder := s.accessOrder ++ [hash] }
    if (s.items.length : Int) > s.maxCacheSize then
      (true, removeOldestCacheItem s)
    else
      (true, s)
  else
    (false, s)

/-- `isCached(hash)`: index lookup, `fs.access`, then the TTL check
`now - timestamp > cacheTTL`; an expired or inaccessible entry is removed
from `items` and filtered out of `accessOrder` (the expired branch also
unlinks the artifact, errors ignored). -/
def isCached (s : State) (hash : String) (now : Int) : Bool × State :=
  match mapGet s.items hash with
  | none => (false, s)
  | some e =>
      match fsGet s.files e.filePath with
      | none =>
          (false, { s with
            items := mapDelete s.items hash
            accessOrder := s.accessOrder.filter fun h => h ≠ hash })
      | some _ =>
          if now - e.timestamp > s.cacheTTL then
            (false, { s with
              items := mapDelete s.items hash
              accessOrder := s.accessOrder.filter fun h => h ≠ hash
              files := fsRemove s.files e.filePath })
          else
            (true, s)

/-- `updateAccessTime(hash)`: move the hash to the most-recently-used end of
`accessOrder` and refresh the entry's `timestamp` to `Date.now()`. -/
def updateAccessTime (s : State) (hash : String) (now : Int) : State :=
  let s := { s with
    accessOrder := (s.accessOrder.filter fun h => h ≠ hash) ++ [hash] }
  match mapGet s.items hash with
  | none => s
  | some e => { s with items := mapSet s.items hash { e with timestamp := now } }

/-- `getCachedItem(hash)`: `isCached`, then inside `try` read the file path
from the index, `updateAccessTime`, and `fs.readFile`.  `readOk` is whether
that read succeeds (it can fail only through an external race); the `catch`
returns `null` and changes nothing further. -/
def getCachedItem (s : State) (hash : String) (now : Int) (readOk : Bool) :
    Option Bytes × State :=
  match isCached s hash now with
  | (false, s) => (none, s)
  | (true, s) =>
      match mapGet s.items hash with
      | none => (none, s)
      | some e =>
          let s := updateAccessTime s hash now
          match fsGet s.files e.filePath with
          | none => (none, s)
          | some buffer => if readOk then (some buffer, s) else (none, s)

/-- One step of `cleanExpiredCache`'s per-hash removal loop: inside `try`,
read `items.get(hash).filePath` (`TypeError` caught when absent), unlink it
(failure caught), and only on success delete from `items` and filter
`accessOrder`. -/
def cleanExpiredStep (s : State) (hash : String) : State :=
  match mapGet s.items hash with
  | none => s
  | some e =>
      match fsGet s.files e.filePath with
      | none => s
      | some _ =>
          { s with
            files := fsRemove s.files e.filePath
            items := mapDelete s.items hash
            accessOrder := s.accessOrder.filter fun h => h ≠ hash }

/-- The trailing `while (items.size > maxCacheSize) removeOldestCacheItem()`
loop, with fuel `accessOrder.length`: every productive iteration shifts one
element off `accessOrder`, and once `accessOrder` is empty the iteration is a
no-op (at that point the source would spin forever; the model stops). -/
def evictLoop : Nat → State → State
  | 0, s => s
  | fuel + 1, s =>
      if (s.items.length : Int) > s.maxCacheSize ∧ s.accessOrder ≠ [] then
        evictLoop fuel (removeOldestCacheItem s)
      else s

/-- `cleanExpiredCache`: collect the hashes with `now - timestamp > cacheTTL`
in index order, run the removal loop over them, then the LRU while-loop. -/
def cleanExpiredCache (s : State) (now : Int) : State :=
  let expiredHashes :=
    (s.items.filter fun p => now - p.2.timestamp > s.cacheTTL).map Prod.fst
  let s := expiredHashes.foldl cleanExpiredStep s
  evictLoop s.accessOrder.length s

/-- `generateCacheKey(mermaidSyntax, options)` destructures only `width` and
`height`; a falsy dimension (absent or `0`) renders as `'default'`.  The md5
digest is modelled as the hash input itself (injective digest). -/
def numVal (v : Option Int) : String :=
  match v with
  | none => "default"
  | some x => if x = 0 then "default" else toString x

/-- Rendering options as passed to `generateCacheKey`.  `scaleFactor` is
carried to show it is never read by the key. -/
structure RenderOptions where
  width : Option Int := none
  height : Option Int := none
  scaleFactor : Option Rat := none
  deriving DecidableEq, Repr

def generateCacheKey (mermaidSyntax : String) (options : RenderOptions) : String :=
  mermaidSyntax ++ "|w:" ++ numVal options.width ++ "|h:" ++ numVal options.height

/-- `store(T,O,B)` of the spec: `generateCacheKey` then `cacheItem`. -/
def store (s : State) (text : String) (options : RenderOptions) (buffer : Bytes)
    (now : Int) : Bool × State :=
  cacheItem s (generateCacheKey text options) buffer now true

/-- `lookup(T,O)` of the spec: `generateCacheKey` then `getCachedItem`. -/
def lookup (s : State) (text : String) (options : RenderOptions) (now : Int) :
    Option Bytes × State :=
  getCachedItem s (generateCacheKey text options) now true

end CacheHelper

namespace MermaidService

/-- Constructor constants of `MermaidService`. -/
def defaultWidth : ℚ := 1920
def defaultHeight : ℚ := 1080
def defaultScaleFactor : ℚ := 2
def minWidth : ℚ := 800
def maxWidth : ℚ := 8000
def minHeight : ℚ := 400
def maxHeight : ℚ := 8000

/-- `requestedWidth || this.defaultWidth`: `undefined` and `0` select the
default. -/
def jsOrQ (v : Option ℚ) (d : ℚ) : ℚ :=
  match v with
  | none => d
  | some x => if x = 0 then d else x

/-- `Math.max(lo, Math.min(hi, x))`, the min/max constraint step. -/
def clampQ (lo hi x : ℚ) : ℚ := max lo (min hi x)

/-- JavaScript `\w` (ASCII word character). -/
def isWordChar (c : Char) : Bool := c.isAlpha || c.isDigit || c = '_'

/-- `line.match(/\[.*?\]/)` (and the `(...)` variant) as a Bool: some
occurrence of `o` is followed, further right on the line, by `c`.  The lines
come from a `split('\n')`, so `.` never has to skip a newline. -/
def hasPair (o c : Char) : List Char → Bool
  | [] => false
  | x :: rest =>
      if x = o then decide (c ∈ rest) || hasPair o c rest
      else hasPair o c rest

/-- The tail of `/:\s*\w+,/` after the colon: `\s*` then `\w+` then `,`.
`\s` and `\w` are disjoint and `,` is in neither class, so the greedy scan is
exactly the regex. -/
def timelineAfterColon (l : List Char) : Bool :=
  let r := l.dropWhile jsIsSpace
  match r.dropWhile isWordChar with
  | ',' :: _ => !(r.takeWhile isWordChar).isEmpty
  | _ => false

/-- `line.match(/:\s*\w+,/)`: search for a colon whose tail matches. -/
def timelineMatch : List Char → Bool
  | [] => false
  | c :: rest => (c = ':' && timelineAfterColon rest) || timelineMatch rest

/-- Per-line node estimate: one for a `[...]` pair, one for a `(...)` pair
(two separate `if` statements in the source, so a line can count twice). -/
def countNodesLine (line : String) : Nat :=
  (if hasPair '[' ']' line.toList then 1 else 0) +
    (if hasPair '(' ')' line.toList then 1 else 0)

def countNodes (lines : List String) : Nat := (lines.map countNodesLine).sum

/-- Lines with `-->` or `---`. -/
def countConnections (lines : List String) : Nat :=
  (lines.filter fun l => jsIncludes l "-->" || jsIncludes l "---").length

/-- `lines.filter(line => line.match(/:\s*\w+,/)).length`. -/
def countTimelineEntries (lines : List String) : Nat :=
  (lines.filter fun l => timelineMatch l.toList).length

/-- `lines.filter(line => line.includes('participant') || line.includes('actor')).length`. -/
def countActors (lines : List String) : Nat :=
  (lines.filter fun l => jsIncludes l "participant" || jsIncludes l "actor").length

/-- The message filter of the sequence branch. -/
def countMessages (lines : List String) : Nat :=
  (lines.filter fun l =>
    jsIncludes l "->" || jsIncludes l "-->" || jsIncludes l "->>" ||
      jsIncludes l "-->>" || jsIncludes l "<-" || jsIncludes l "<--").length

/-- One line of `estimateNestingLevel`'s loop: `subgraph`/`section` opens a
level, `end` (with a positive current level) closes one, and a leading
whitespace run contributes `⌊len/2⌋` as a fallback. -/
def nestStep (acc : Nat × Nat) (line : String) : Nat × Nat :=
  let (cur, maxL) := acc
  let (cur, maxL) :=
    if jsIncludes line "subgraph" || jsIncludes line "section" then
      (cur + 1, max maxL (cur + 1))
    else (cur, maxL)
  let cur := if jsIncludes line "end" && decide (0 < cur) then cur - 1 else cur
  let indent := (line.toList.takeWhile jsIsSpace).length
  let maxL := if 0 < indent then max maxL (indent / 2) else maxL
  (cur, maxL)

/-- `estimateNestingLevel(mermaidCode)`. -/
def estimateNestingLevel (mermaidCode : String) : Nat :=
  ((jsSplitLines mermaidCode).foldl nestStep (0, 0)).2

/-- The flowchart-orientation block: four exclusive cases on orientation and
node count, otherwise the dimensions pass through. -/
def flowchartDims (isWide isTall : Bool) (nodeCount : Nat) (wh : ℚ × ℚ) :
    ℚ × ℚ :=
  if isWide ∧ 15 < nodeCount then
    let w := max wh.1 3840
    (w, w / 4)
  else if isWide ∧ 8 < nodeCount then
    let w := max wh.1 2560
    (w, w / 3)
  else if isTall ∧ 20 < nodeCount then
    let h := max wh.2 4320
    (h * (9 / 24), h)
  else if isTall ∧ 15 < nodeCount then
    let h := max wh.2 2160
    (h * (9 / 16), h)
  else wh

/-- The deep-nesting block (`nestingLevel > 4`). -/
def nestingDims (n : Nat) (wh : ℚ × ℚ) : ℚ × ℚ :=
  if 4 < n then
    let ratio := max (9 / 16 : ℚ) (9 / (16 + (n : ℚ)))
    let h := max wh.2 (1080 + (n : ℚ) * 200)
    (h * ratio, h)
  else wh

/-- The gantt block: many timeline entries give a tall 2:3 chart with a
minimum height, otherwise a wide 3:1 chart with a minimum width. -/
def ganttDims (timelineEntries : Nat) (wh : ℚ × ℚ) : ℚ × ℚ :=
  if 15 < timelineEntries then
    let h := max wh.2 3200
    (h * (2 / 3), h)
  else
    let w := max wh.1 3200
    (w, w / 3)

/-- The sequence-diagram block. -/
def sequenceDims (actorCount messageCount : Nat) (wh : ℚ × ℚ) : ℚ × ℚ :=
  if actorCount ≤ 5 ∧ 15 < messageCount then
    let h := max wh.2 2560
    (h * (2 / 3), h)
  else if 5 < actorCount then
    let w := max wh.1 2560
    (w, w / 2)
  else wh

/-- The complexity tiers for the scale factor. -/
def scaleFromComplexity (nodeCount connectionCount : Nat) : ℚ :=
  if 30 < nodeCount ∨ 40 < connectionCount then 3
  else if 15 < nodeCount ∨ 20 < connectionCount then 5 / 2
  else defaultScaleFactor

/-- The result of `calculateOptimalDimensions`. -/
structure Dimensions where
  width : ℚ
  height : ℚ
  scaleFactor : ℚ
  deriving DecidableEq, Repr

/-- `calculateOptimalDimensions(mermaidCode, requestedWidth, requestedHeight)`
of `src/unnamed/part_007`: type detection by trimmed keyword, the
orientation/complexity blocks in source order, the min/max clamp, and the
scale-factor computation.  Node and connection counting happens only inside
the flowchart branch; elsewhere both counters stay `0`. -/
def calculateOptimalDimensions (mermaidCode : String)
    (requestedWidth requestedHeight : Option ℚ) : Dimensions :=
  let wh0 := (jsOrQ requestedWidth defaultWidth, jsOrQ requestedHeight defaultHeight)
  let isFlowchart := jsStartsWith (jsTrim mermaidCode) "flowchart" ||
    jsStartsWith (jsTrim mermaidCode) "graph"
  let isGantt := jsStartsWith (jsTrim mermaidCode) "gantt"
  let isSequence := jsStartsWith (jsTrim mermaidCode) "sequenceDiagram"
  let lines := jsSplitLines mermaidCode
  let nodeCount := if isFlowchart then countNodes lines else 0
  let connectionCount := if isFlowchart then countConnections lines else 0
  let isWide := isFlowchart &&
    (jsIncludes mermaidCode "LR" || jsIncludes mermaidCode "RL")
  let isTall := isFlowchart &&
    (jsIncludes mermaidCode "TD" || jsIncludes mermaidCode "BT")
  let wh1 := if isFlowchart then flowchartDims isWide isTall nodeCount wh0 else wh0
  let wh2 := nestingDims (estimateNestingLevel mermaidCode) wh1
  let wh3 := if isGantt then ganttDims (countTimelineEntries lines) wh2 else wh2
  let wh4 := if isSequence then sequenceDims (countActors lines) (countMessages lines) wh3
    else wh3
  let width := clampQ minWidth maxWidth wh4.1
  let height := clampQ minHeight maxHeight wh4.2
  let scaleFactor := scaleFromComplexity nodeCount connectionCount
  let scaleFactor :=
    if width * (3 / 2) < height then min 3 (scaleFactor + 1 / 2) else scaleFactor
  ⟨width, height, scaleFactor⟩

end MermaidService

/-! ## Library lemmas about the association-list operations and the cache -/

namespace CacheHelper

theorem assocGet_assocSet_self {α : Type} (m : List (String × α)) (k : String)
    (v : α) : assocGet (assocSet m k v) k = some v := by
  induction m with
  | nil => simp [assocSet, assocGet]
  | cons p rest ih =>
      obtain ⟨k', v'⟩ := p
      by_cases h : k' = k
      · simp [assocSet, assocGet, h]
      · simp [assocSet, assocGet, h, ih]

theorem updateAccessTime_files (s : State) (h : String) (now : Int) :
    (updateAccessTime s h now).files = s.files := by
  simp only [updateAccessTime]
  split <;> rfl

theorem updateAccessTime_accessOrder (s : State) (h : String) (now : Int) :
    (updateAccessTime s h now).accessOrder =
      (s.accessOrder.filter fun x => x ≠ h) ++ [h] := by
  simp only [updateAccessTime]
  split <;> rfl

theorem updateAccessTime_get (s : State) (h : String) (now : Int) (e : Entry)
    (hm : mapGet s.items h = some e) :
    mapGet (updateAccessTime s h now).items h = some { e with timestamp := now } := by
  have hm' : mapGet ({ s with accessOrder :=
      (s.accessOrder.filter fun x => x ≠ h) ++ [h] } : State).items h = some e := hm
  simp only [updateAccessTime, hm']
  exact assocGet_assocSet_self _ _ _

/-- Characterisation of a positive `isCached`: the state is untouched, the
index has the entry, the artifact is readable, and the entry is fresh. -/
theorem isCached_true_spec (s : State) (h : String) (now : Int)
    (hc : (isCached s h now).1 = true) :
    (isCached s h now).2 = s ∧
      ∃ e b, mapGet s.items h = some e ∧ fsGet s.files e.filePath = some b ∧
        now - e.timestamp ≤ s.cacheTTL := by
  cases hm : mapGet s.items h with
  | none =>
      simp only [isCached, hm] at hc
      exact Bool.noConfusion hc
  | some e =>
      cases hf : fsGet s.files e.filePath with
      | none =>
          simp only [isCached, hm, hf] at hc
          exact Bool.noConfusion hc
      | some b =>
          by_cases ht : now - e.timestamp > s.cacheTTL
          · simp only [isCached, hm, hf, if_pos ht] at hc
            exact Bool.noConfusion hc
          · simp only [isCached, hm, hf, if_neg ht]
            exact ⟨by trivial, e, b, rfl, hf, not_lt.mp ht⟩

/-- Evaluation of `getCachedItem` on a cache hit: the read happens after the
access-time refresh, and only `readOk` decides between the buffer and
`null`. -/
theorem getCachedItem_eq_of_hit (s : State) (h : String) (now : Int)
    (readOk : Bool) (e : Entry) (b : Bytes)
    (hc : (isCached s h now).1 = true)
    (hm : mapGet s.items h = some e)
    (hf : fsGet s.files e.filePath = some b) :
    getCachedItem s h now readOk =
      (if readOk then some b else none, updateAccessTime s h now) := by
  have hs : (isCached s h now).2 = s := (isCached_true_spec s h now hc).1
  have hpair : isCached s h now = (true, s) := by
    rcases hq : isCached s h now with ⟨bb, ss⟩
    rw [hq] at hc hs
    simp only at hc hs
    rw [hc, hs]
  have hf' : fsGet (updateAccessTime s h now).files e.filePath = some b := by
    rw [updateAccessTime_files]; exact hf
  simp only [getCachedItem, hpair, hm, hf']
  cases readOk <;> simp

end CacheHelper

/-! ## Claims -/

open CacheHelper in
/-- C1: the capacity invariant fails on the code.  With `maxCacheSize = 2`
and every durable write succeeding, the put sequence A, A, B, C, D leaves the
keys B, C, D — three live entries — in the index: the duplicate push of A
onto `accessOrder` makes the eviction triggered by the put of D shift a stale
hash, throw on `items.get(...).filePath`, and delete nothing. -/
theorem cacheItem_capacity_violation :
    ((["A", "A", "B", "C", "D"].foldl
          (fun s h => (cacheItem s h [1] 0 true).2)
          (mkState (some 2) none)).items.map Prod.fst = ["B", "C", "D"]) ∧
      (mkState (some 2) none).maxCacheSize = 2 := by
  constructor
  · decide
  · decide

open CacheHelper in
/-- C2 (counterexample): with `cacheTTL = 100`, put A at time 0, a hit at
time 90 and another read at time 150 still returns the bytes, although more
than `ttl` has elapsed since the put that created the entry. -/
theorem getCachedItem_after_createdAt_ttl :
    (getCachedItem
        (getCachedItem ((cacheItem (mkState none (some 100)) "A" [7] 0 true).2)
            "A" 90 true).2
        "A" 150 true).1 = some [7] ∧ (150 : Int) - 0 > 100 := by
  constructor
  · decide
  · decide

open CacheHelper in
/-- C2 (amended): `get` never returns bytes for an entry whose stored
timestamp is more than `ttl` old; that timestamp is the time of the last
access, not of the creating put, because every successful `get` refreshes it
to `now` via `updateAccessTime`. -/
theorem getCachedItem_ttl_last_access (s : State) (h : String) (now : Int)
    (readOk : Bool) (buf : Bytes)
    (hres : (getCachedItem s h now readOk).1 = some buf) :
    ∃ e, mapGet s.items h = some e ∧ now - e.timestamp ≤ s.cacheTTL ∧
      mapGet (getCachedItem s h now readOk).2.items h =
        some { e with timestamp := now } := by
  have hc : (isCached s h now).1 = true := by
    by_contra hcf
    have hcf' : (isCached s h now).1 = false := by
      cases hq : (isCached s h now).1
      · rfl
      · exact absurd hq hcf
    have : (getCachedItem s h now readOk).1 = none := by
      rcases hq : isCached s h now with ⟨bb, s1⟩
      rw [hq] at hcf'
      simp only at hcf'
      subst hcf'
      simp only [getCachedItem, hq]
    rw [this] at hres
    exact Option.noConfusion hres
  obtain ⟨hs, e, bb, hm, hf, hle⟩ := isCached_true_spec s h now hc
  have heq := getCachedItem_eq_of_hit s h now readOk e bb hc hm hf
  rw [heq]
  exact ⟨e, hm, hle, updateAccessTime_get s h now e hm⟩

open CacheHelper in
/-- C2 (amended, witness): a concrete hit within the sliding TTL window. -/
theorem getCachedItem_ttl_last_access_witness :
    ((getCachedItem ⟨100, 100, [("A", ⟨0, cachePath "A"⟩)], ["A"],
        [(cachePath "A", [7])]⟩ "A" 90 true).1 = some [7]) ∧
      (∃ e, mapGet [("A", (⟨0, cachePath "A"⟩ : Entry))] "A" = some e ∧
        90 - e.timestamp ≤ 100 ∧
        mapGet (getCachedItem ⟨100, 100, [("A", ⟨0, cachePath "A"⟩)], ["A"],
            [(cachePath "A", [7])]⟩ "A" 90 true).2.items "A" =
          some { e with timestamp := 90 }) :=
  ⟨by decide,
    getCachedItem_ttl_last_access
      ⟨100, 100, [("A", ⟨0, cachePath "A"⟩)], ["A"], [(cachePath "A", [7])]⟩
      "A" 90 true [7] (by decide)⟩

open CacheHelper in
/-- C6: with `maxCacheSize = 2` and fresh entries, put A, put B, get A, put C
returns the stored bytes for A and leaves exactly A and C, in that access
order: the read promoted A, so the put of C evicted B. -/
theorem lru_eviction_order :
    (getCachedItem
          ((cacheItem (cacheItem (mkState (some 2) none) "A" [10] 0 true).2
              "B" [20] 1 true).2)
          "A" 2 true).1 = some [10] ∧
      ((cacheItem
            (getCachedItem
                ((cacheItem (cacheItem (mkState (some 2) none) "A" [10] 0 true).2
                    "B" [20] 1 true).2)
                "A" 2 true).2
            "C" [30] 3 true).2.items.map Prod.fst = ["A", "C"]) ∧
      ((cacheItem
            (getCachedItem
                ((cacheItem (cacheItem (mkState (some 2) none) "A" [10] 0 true).2
                    "B" [20] 1 true).2)
                "A" 2 true).2
            "C" [30] 3 true).2.accessOrder = ["A", "C"]) := by
  refine ⟨?_, ?_, ?_⟩ <;> decide

/-- Strings with equal character data are equal. -/
theorem stringDataInj {s t : String} (h : s.data = t.data) : s = t := by
  cases s; cases t; exact congrArg String.mk h

open CacheHelper in
/-- C3: round-trip fidelity.  A `store` (key generation plus `cacheItem` with
a successful durable write) followed immediately by a `lookup` of the same
text and options returns exactly the stored bytes, provided the TTL is
nonnegative and the insert did not overflow the capacity (no intervening
eviction). -/
theorem store_lookup_roundtrip (s : State) (text : String) (o : RenderOptions)
    (buf : Bytes) (now : Int)
    (httl : 0 ≤ s.cacheTTL)
    (hnoevict : ((mapSet s.items (generateCacheKey text o)
          ⟨now, cachePath (generateCacheKey text o)⟩).length : Int) ≤
        s.maxCacheSize) :
    (lookup (store s text o buf now).2 text o now).1 = some buf := by
  have hstore : (store s text o buf now).2 =
      { s with
        files := fsWrite s.files (cachePath (generateCacheKey text o)) buf
        items := mapSet s.items (generateCacheKey text o)
          ⟨now, cachePath (generateCacheKey text o)⟩
        accessOrder := s.accessOrder ++ [generateCacheKey text o] } := by
    simp only [store, cacheItem, if_true]
    rw [if_neg (not_lt.mpr hnoevict)]
  have hm : mapGet (store s text o buf now).2.items (generateCacheKey text o) =
      some ⟨now, cachePath (generateCacheKey text o)⟩ := by
    rw [hstore]
    exact assocGet_assocSet_self _ _ _
  have hf : fsGet (store s text o buf now).2.files
      (cachePath (generateCacheKey text o)) = some buf := by
    rw [hstore]
    exact assocGet_assocSet_self _ _ _
  have httl' : ¬ (now - (⟨now, cachePath (generateCacheKey text o)⟩ : Entry).timestamp >
      (store s text o buf now).2.cacheTTL) := by
    rw [hstore]
    simp only
    omega
  have hc : (isCached (store s text o buf now).2 (generateCacheKey text o) now).1 =
      true := by
    simp only [isCached, hm, hf, if_neg httl']
  have heq := getCachedItem_eq_of_hit (store s text o buf now).2
    (generateCacheKey text o) now true _ buf hc hm hf
  simp only [lookup, heq, if_true]

open CacheHelper in
/-- C3 (witness): a concrete store/lookup round trip on a fresh cache. -/
theorem store_lookup_roundtrip_witness :
    (0 : Int) ≤ (mkState none none).cacheTTL ∧
      (((mapSet (mkState none none).items (generateCacheKey "graph TD" {})
            ⟨5, cachePath (generateCacheKey "graph TD" {})⟩).length : Int) ≤
          (mkState none none).maxCacheSize) ∧
      (lookup (store (mkState none none) "graph TD" {} [1, 2] 5).2
          "graph TD" {} 5).1 = some [1, 2] :=
  ⟨by decide, by decide,
    store_lookup_roundtrip (mkState none none) "graph TD" {} [1, 2] 5
      (by decide) (by decide)⟩

open CacheHelper in
/-- C4 (counterexample): two requests that differ only in `scaleFactor` get
the same cache key, because `generateCacheKey` destructures only `width` and
`height`. -/
theorem generateCacheKey_ignores_scaleFactor :
    (some (2 : Rat) ≠ some (3 : Rat)) ∧
      generateCacheKey "graph TD"
          { width := some 800, height := none, scaleFactor := some 2 } =
        generateCacheKey "graph TD"
          { width := some 800, height := none, scaleFactor := some 3 } :=
  ⟨by decide, rfl⟩

open CacheHelper in
/-- C4 (amended): `generateCacheKey` is a function of the text and the
rendered width/height components only.  Two option records whose rendered
width components differ (heights rendering equal), or vice versa, give
different keys; the `scaleFactor` field never influences the key.  A
dimension that is absent or `0` renders as `default`. -/
theorem generateCacheKey_sensitivity (T : String) (o1 o2 : RenderOptions)
    (hdim : (numVal o1.width ≠ numVal o2.width ∧ numVal o1.height = numVal o2.height) ∨
      (numVal o1.width = numVal o2.width ∧ numVal o1.height ≠ numVal o2.height)) :
    generateCacheKey T o1 ≠ generateCacheKey T o2 ∧
      (∀ (S : String) (o : RenderOptions) (sf : Option Rat),
        generateCacheKey S { o with scaleFactor := sf } = generateCacheKey S o) ∧
      numVal (some 0) = numVal none := by
  refine ⟨?_, fun _ _ _ => rfl, rfl⟩
  intro heq
  have hd : (generateCacheKey T o1).data = (generateCacheKey T o2).data :=
    congrArg String.data heq
  simp only [generateCacheKey, String.data_append, List.append_assoc] at hd
  have hd2 := List.append_cancel_left (List.append_cancel_left hd)
  rcases hdim with ⟨hw, hh⟩ | ⟨hw, hh⟩
  · rw [hh] at hd2
    exact hw (stringDataInj (List.append_cancel_right hd2))
  · rw [hw] at hd2
    have hd4 := List.append_cancel_left (List.append_cancel_left hd2)
    exact hh (stringDataInj hd4)

open CacheHelper in
/-- C4 (witness): the spec's own example, width 800 versus width 1024. -/
theorem generateCacheKey_sensitivity_witness :
    (numVal (some 800) ≠ numVal (some 1024)) ∧
      generateCacheKey "g" { width := some 800 } ≠
        generateCacheKey "g" { width := some 1024 } :=
  ⟨by decide,
    (generateCacheKey_sensitivity "g" { width := some 800 } { width := some 1024 }
        (Or.inl ⟨by decide, rfl⟩)).1⟩

open CacheHelper in
/-- C5 (counterexample): when the artifact is already gone, evicting the LRU
entry removes it from `accessOrder` (the `shift` happens before the `try`)
but the failing `fs.unlink` aborts the `try` block before `items.delete`, so
the key survives in the items index — contradicting unconditional removal
from both. -/
theorem eviction_unlink_failure_keeps_item :
    (removeOldestCacheItem
        ⟨2, 100, [("H", ⟨0, cachePath "H"⟩)], ["H"], []⟩).accessOrder = [] ∧
      ((removeOldestCacheItem
          ⟨2, 100, [("H", ⟨0, cachePath "H"⟩)], ["H"], []⟩).items.map Prod.fst =
        ["H"]) ∧
      fsGet ([] : List (String × Bytes)) (cachePath "H") = none := by
  refine ⟨?_, ?_, ?_⟩ <;> decide

open CacheHelper in
/-- C5 (amended): a failed durable delete is only logged, never raised, but
the index entry is retained: `removeOldestCacheItem` still drops the hash
from `accessOrder` while keeping its `items` entry, and the expiry sweep's
per-hash step keeps both the `items` entry and the `accessOrder` position. -/
theorem eviction_unlink_failure_behavior (s : State) (h : String)
    (rest : List String) (e : Entry)
    (hord : s.accessOrder = h :: rest)
    (hm : mapGet s.items h = some e)
    (hf : fsGet s.files e.filePath = none) :
    removeOldestCacheItem s = { s with accessOrder := rest } ∧
      (∀ s' : State, mapGet s'.items h = some e →
        fsGet s'.files e.filePath = none → cleanExpiredStep s' h = s') := by
  constructor
  · have hm' : mapGet ({ s with accessOrder := rest } : State).items h = some e := hm
    have hf' : fsGet ({ s with accessOrder := rest } : State).files e.filePath =
        none := hf
    simp only [removeOldestCacheItem, hord, hm', hf']
  · intro s' hm' hf'
    simp only [cleanExpiredStep, hm', hf']

open CacheHelper in
/-- C5 (amended, witness): concrete instance of the unlink-failure case. -/
theorem eviction_unlink_failure_behavior_witness :
    (removeOldestCacheItem ⟨2, 100, [("H", ⟨0, cachePath "H"⟩)], ["H"], []⟩ =
      { maxCacheSize := 2, cacheTTL := 100,
        items := [("H", ⟨0, cachePath "H"⟩)], accessOrder := [],
        files := [] }) :=
  (eviction_unlink_failure_behavior
      ⟨2, 100, [("H", ⟨0, cachePath "H"⟩)], ["H"], []⟩ "H" [] ⟨0, cachePath "H"⟩
      rfl (by decide) rfl).1

open CacheHelper in
/-- C7 (counterexample): a read failure after a passed presence/freshness
check returns `null` but does not evict: the key is still in the items index
(and was even promoted to most-recently-used), because `getCachedItem`'s
`catch` only logs. -/
theorem getCachedItem_read_failure_no_eviction :
    (getCachedItem ⟨2, 100, [("H", ⟨0, cachePath "H"⟩)], ["H"],
        [(cachePath "H", [9])]⟩ "H" 5 false).1 = none ∧
      ((getCachedItem ⟨2, 100, [("H", ⟨0, cachePath "H"⟩)], ["H"],
          [(cachePath "H", [9])]⟩ "H" 5 false).2.items.map Prod.fst = ["H"]) ∧
      (isCached ⟨2, 100, [("H", ⟨0, cachePath "H"⟩)], ["H"],
          [(cachePath "H", [9])]⟩ "H" 5).1 = true := by
  refine ⟨?_, ?_, ?_⟩ <;> decide

open CacheHelper in
/-- C7 (amended): on a cache hit whose subsequent read fails, `getCachedItem`
returns `null` without raising, and the entry stays in the index, promoted to
the most-recently-used end of the access order. -/
theorem getCachedItem_read_failure (s : State) (h : String) (now : Int)
    (hc : (isCached s h now).1 = true) :
    (getCachedItem s h now false).1 = none ∧
      mapHas (getCachedItem s h now false).2.items h = true ∧
      (getCachedItem s h now false).2.accessOrder.getLast? = some h := by
  obtain ⟨hs, e, b, hm, hf, hle⟩ := isCached_true_spec s h now hc
  have heq := getCachedItem_eq_of_hit s h now false e b hc hm hf
  rw [heq]
  refine ⟨by simp, ?_, ?_⟩
  · simp only [mapHas, updateAccessTime_get s h now e hm, Option.isSome_some]
  · rw [updateAccessTime_accessOrder]
    exact List.getLast?_concat _

open CacheHelper in
/-- C7 (amended, witness): the concrete read-failure state. -/
theorem getCachedItem_read_failure_witness :
    ((isCached ⟨2, 100, [("H", ⟨0, cachePath "H"⟩)], ["H"],
        [(cachePath "H", [9])]⟩ "H" 5).1 = true) ∧
      (getCachedItem ⟨2, 100, [("H", ⟨0, cachePath "H"⟩)], ["H"],
          [(cachePath "H", [9])]⟩ "H" 5 false).1 = none :=
  ⟨by decide,
    (getCachedItem_read_failure
        ⟨2, 100, [("H", ⟨0, cachePath "H"⟩)], ["H"], [(cachePath "H", [9])]⟩
        "H" 5 (by decide)).1⟩

open CacheHelper in
/-- C8 (counterexample): the constructor has no validation and never raises:
`maxCacheSize = 0` or `cacheTTL = 0` is silently replaced by the default
(100 entries, 24 hours) and negative values are accepted as given. -/
theorem constructor_accepts_nonpositive_config :
    (mkState (some 0) (some 0)).maxCacheSize = 100 ∧
      (mkState (some 0) (some 0)).cacheTTL = 24 * 60 * 60 * 1000 ∧
      (mkState (some (-5)) (some (-7))).maxCacheSize = -5 ∧
      (mkState (some (-5)) (some (-7))).cacheTTL = -7 := by
  refine ⟨?_, ?_, ?_, ?_⟩ <;> decide

open CacheHelper in
/-- C8 (amended): construction is total — it raises for no configuration; a
falsy (zero) `maxCacheSize` or `cacheTTL` is replaced by the default and any
nonzero value, including a negative one, is stored unchanged. -/
theorem constructor_defaults (m t : Int) (hm : m ≠ 0) (ht : t ≠ 0) :
    (mkState (some m) (some t)).maxCacheSize = m ∧
      (mkState (some m) (some t)).cacheTTL = t ∧
      (mkState (some 0) none).maxCacheSize = 100 ∧
      (mkState none (some 0)).cacheTTL = 24 * 60 * 60 * 1000 := by
  simp [mkState, jsOrInt, hm, ht]

open CacheHelper in
/-- C8 (amended, witness): negative configuration values are stored as-is. -/
theorem constructor_defaults_witness :
    ((-5 : Int) ≠ 0) ∧ ((-7 : Int) ≠ 0) ∧
      (mkState (some (-5)) (some (-7))).maxCacheSize = -5 :=
  ⟨by decide, by decide,
    (constructor_defaults (-5) (-7) (by decide) (by decide)).1⟩

namespace MermaidService

theorem jsStartsWith_iff (s p : String) :
    jsStartsWith s p = true ↔ p.toList <+: s.toList := by
  simp [MermaidConv.jsStartsWith, List.isPrefixOf_iff_prefix]

/-- Two keywords neither of which leads the other cannot both lead the same
text. -/
theorem startsWith_excl (s p q : String) (h : jsStartsWith s p = true)
    (h1 : ¬ p.toList <+: q.toList) (h2 : ¬ q.toList <+: p.toList) :
    jsStartsWith s q = false := by
  cases hq : jsStartsWith s q with
  | false => rfl
  | true =>
      exfalso
      rcases List.prefix_or_prefix_of_prefix ((jsStartsWith_iff s q).mp hq)
          ((jsStartsWith_iff s p).mp h) with hh | hh
      · exact h2 hh
      · exact h1 hh

theorem nestingDims_id {n : Nat} (hn : n ≤ 4) (wh : ℚ × ℚ) :
    nestingDims n wh = wh := by
  unfold nestingDims
  rw [if_neg (by omega)]

theorem clampQ_eq (lo hi x : ℚ) (h1 : lo ≤ x) (h2 : x ≤ hi) :
    clampQ lo hi x = x := by
  unfold clampQ
  rw [min_eq_right h2, max_eq_right h1]

/-- A `x || default` dimension is positive and keeps any upper bound shared
by the default and the supplied value. -/
theorem jsOrQ_bounds (v : Option ℚ) (d hi : ℚ) (hd : 0 < d) (hdhi : d ≤ hi)
    (hv : ∀ q, v = some q → 0 ≤ q ∧ q ≤ hi) :
    0 < jsOrQ v d ∧ jsOrQ v d ≤ hi := by
  cases v with
  | none => exact ⟨hd, hdhi⟩
  | some q =>
      obtain ⟨hq0, hqh⟩ := hv q rfl
      simp only [jsOrQ]
      by_cases h0 : q = 0
      · rw [if_pos h0]; exact ⟨hd, hdhi⟩
      · rw [if_neg h0]; exact ⟨lt_of_le_of_ne hq0 (Ne.symm h0), hqh⟩

/-- On gantt text with shallow nesting, the returned dimensions are the
gantt block's output put through the min/max clamp. -/
theorem calc_gantt_wh (code : String) (reqW reqH : Option ℚ)
    (hg : jsStartsWith (jsTrim code) "gantt" = true)
    (hn : estimateNestingLevel code ≤ 4) :
    (calculateOptimalDimensions code reqW reqH).width =
      clampQ minWidth maxWidth
        (ganttDims (countTimelineEntries (jsSplitLines code))
          (jsOrQ reqW defaultWidth, jsOrQ reqH defaultHeight)).1 ∧
    (calculateOptimalDimensions code reqW reqH).height =
      clampQ minHeight maxHeight
        (ganttDims (countTimelineEntries (jsSplitLines code))
          (jsOrQ reqW defaultWidth, jsOrQ reqH defaultHeight)).2 := by
  have hf1 : jsStartsWith (jsTrim code) "flowchart" = false :=
    startsWith_excl _ _ _ hg (by decide) (by decide)
  have hf2 : jsStartsWith (jsTrim code) "graph" = false :=
    startsWith_excl _ _ _ hg (by decide) (by decide)
  have hs1 : jsStartsWith (jsTrim code) "sequenceDiagram" = false :=
    startsWith_excl _ _ _ hg (by decide) (by decide)
  constructor <;>
    · simp only [calculateOptimalDimensions, hg, hf1, hf2, hs1, nestingDims_id hn]
      simp

end MermaidService

open MermaidService in
/-- C9: for gantt text (and nesting level at most 4, so that the generic
deep-nesting override stays out of the way, with requested dimensions absent
or within the service's [0, 8000] range), at most 15 timeline entries give
the wide 3:1 geometry with width at least the 3200 minimum, and more than 15
give the taller 2:3 geometry (height exceeding width) with height at least
the 3200 minimum. -/
theorem gantt_dimension_heuristic (code : String) (reqW reqH : Option ℚ)
    (hg : jsStartsWith (jsTrim code) "gantt" = true)
    (hn : estimateNestingLevel code ≤ 4)
    (hw : ∀ q, reqW = some q → 0 ≤ q ∧ q ≤ 8000)
    (hh : ∀ q, reqH = some q → 0 ≤ q ∧ q ≤ 8000) :
    (countTimelineEntries (jsSplitLines code) ≤ 15 →
        3200 ≤ (calculateOptimalDimensions code reqW reqH).width ∧
        (calculateOptimalDimensions code reqW reqH).height =
          (calculateOptimalDimensions code reqW reqH).width / 3) ∧
      (15 < countTimelineEntries (jsSplitLines code) →
        3200 ≤ (calculateOptimalDimensions code reqW reqH).height ∧
        (calculateOptimalDimensions code reqW reqH).width =
          (calculateOptimalDimensions code reqW reqH).height * (2 / 3) ∧
        (calculateOptimalDimensions code reqW reqH).width <
          (calculateOptimalDimensions code reqW reqH).height) := by
  obtain ⟨hw0, hw8⟩ := jsOrQ_bounds reqW defaultWidth 8000
    (by norm_num [defaultWidth]) (by norm_num [defaultWidth]) hw
  obtain ⟨hh0, hh8⟩ := jsOrQ_bounds reqH defaultHeight 8000
    (by norm_num [defaultHeight]) (by norm_num [defaultHeight]) hh
  obtain ⟨hcw, hch⟩ := calc_gantt_wh code reqW reqH hg hn
  constructor
  · intro ht
    have hgd1 : (ganttDims (countTimelineEntries (jsSplitLines code))
        (jsOrQ reqW defaultWidth, jsOrQ reqH defaultHeight)).1 =
        max (jsOrQ reqW defaultWidth) 3200 := by
      simp only [ganttDims]
      rw [if_neg (not_lt.mpr ht)]
    have hgd2 : (ganttDims (countTimelineEntries (jsSplitLines code))
        (jsOrQ reqW defaultWidth, jsOrQ reqH defaultHeight)).2 =
        max (jsOrQ reqW defaultWidth) 3200 / 3 := by
      simp only [ganttDims]
      rw [if_neg (not_lt.mpr ht)]
    have h32 : (3200 : ℚ) ≤ max (jsOrQ reqW defaultWidth) 3200 := le_max_right _ _
    have hle : max (jsOrQ reqW defaultWidth) 3200 ≤ 8000 :=
      max_le hw8 (by norm_num)
    have hclW : clampQ minWidth maxWidth (max (jsOrQ reqW defaultWidth) 3200) =
        max (jsOrQ reqW defaultWidth) 3200 :=
      clampQ_eq _ _ _ (by rw [minWidth]; linarith) (by rw [maxWidth]; linarith)
    have hclH : clampQ minHeight maxHeight
        (max (jsOrQ reqW defaultWidth) 3200 / 3) =
        max (jsOrQ reqW defaultWidth) 3200 / 3 :=
      clampQ_eq _ _ _ (by rw [minHeight]; linarith) (by rw [maxHeight]; linarith)
    refine ⟨?_, ?_⟩
    · rw [hcw, hgd1, hclW]; exact h32
    · rw [hch, hgd2, hclH, hcw, hgd1, hclW]
  · intro ht
    have hgd1 : (ganttDims (countTimelineEntries (jsSplitLines code))
        (jsOrQ reqW defaultWidth, jsOrQ reqH defaultHeight)).1 =
        max (jsOrQ reqH defaultHeight) 3200 * (2 / 3) := by
      simp only [ganttDims]
      rw [if_pos ht]
    have hgd2 : (ganttDims (countTimelineEntries (jsSplitLines code))
        (jsOrQ reqW defaultWidth, jsOrQ reqH defaultHeight)).2 =
        max (jsOrQ reqH defaultHeight) 3200 := by
      simp only [ganttDims]
      rw [if_pos ht]
    have h32 : (3200 : ℚ) ≤ max (jsOrQ reqH defaultHeight) 3200 := le_max_right _ _
    have hle : max (jsOrQ reqH defaultHeight) 3200 ≤ 8000 :=
      max_le hh8 (by norm_num)
    have hclW : clampQ minWidth maxWidth
        (max (jsOrQ reqH defaultHeight) 3200 * (2 / 3)) =
        max (jsOrQ reqH defaultHeight) 3200 * (2 / 3) :=
      clampQ_eq _ _ _ (by rw [minWidth]; linarith) (by rw [maxWidth]; linarith)
    have hclH : clampQ minHeight maxHeight (max (jsOrQ reqH defaultHeight) 3200) =
        max (jsOrQ reqH defaultHeight) 3200 :=
      clampQ_eq _ _ _ (by rw [minHeight]; linarith) (by rw [maxHeight]; linarith)
    refine ⟨?_, ?_, ?_⟩
    · rw [hch, hgd2, hclH]; exact h32
    · rw [hcw, hgd1, hclW, hch, hgd2, hclH]
    · rw [hcw, hgd1, hclW, hch, hgd2, hclH]; linarith

open MermaidService in
/-- C9 (witness): a small gantt chart takes the wide branch. -/
theorem gantt_dimension_heuristic_witness :
    jsStartsWith (jsTrim "gantt\n  t : a1, 2024-01-01, 1d") "gantt" = true ∧
      estimateNestingLevel "gantt\n  t : a1, 2024-01-01, 1d" ≤ 4 ∧
      countTimelineEntries (jsSplitLines "gantt\n  t : a1, 2024-01-01, 1d") ≤ 15 ∧
      3200 ≤ (calculateOptimalDimensions "gantt\n  t : a1, 2024-01-01, 1d"
        none none).width :=
  ⟨by decide, by decide, by decide,
    ((gantt_dimension_heuristic "gantt\n  t : a1, 2024-01-01, 1d" none none
          (by decide) (by decide) (fun q hq => Option.noConfusion hq)
          (fun q hq => Option.noConfusion hq)).1 (by decide)).1⟩

open MermaidService in
/-- C10: for any non-flowchart-family text (gantt, sequence, or anything
unrecognised) the complexity tiers never fire — the counters are only
computed in the flowchart branch — so the scale factor is the default 2.0,
boosted to exactly 2.5 when the final height exceeds 1.5 times the final
width. -/
theorem nonflowchart_scaleFactor (code : String) (reqW reqH : Option ℚ)
    (h1 : jsStartsWith (jsTrim code) "flowchart" = false)
    (h2 : jsStartsWith (jsTrim code) "graph" = false) :
    ((calculateOptimalDimensions code reqW reqH).width * (3 / 2) <
        (calculateOptimalDimensions code reqW reqH).height →
      (calculateOptimalDimensions code reqW reqH).scaleFactor = 5 / 2) ∧
      (¬ ((calculateOptimalDimensions code reqW reqH).width * (3 / 2) <
          (calculateOptimalDimensions code reqW reqH).height) →
        (calculateOptimalDimensions code reqW reqH).scaleFactor = 2) := by
  have hsc : scaleFromComplexity 0 0 = 2 := by
    simp [scaleFromComplexity, defaultScaleFactor]
  simp only [calculateOptimalDimensions, h1, h2]
  simp only [Bool.or_self, Bool.false_eq_true, if_false]
  constructor <;> intro hcond
  · rw [if_pos hcond, hsc]
    rw [min_eq_right (by norm_num)]
    norm_num
  · rw [if_neg hcond]
    exact hsc

open MermaidService in
/-- C10 (witness): a small gantt chart gets the default scale factor 2.0. -/
theorem nonflowchart_scaleFactor_witness :
    jsStartsWith (jsTrim "gantt") "flowchart" = false ∧
      jsStartsWith (jsTrim "gantt") "graph" = false ∧
      (calculateOptimalDimensions "gantt" none none).scaleFactor = 2 := by
  have h1 : jsStartsWith (jsTrim "gantt") "flowchart" = false := by decide
  have h2 : jsStartsWith (jsTrim "gantt") "graph" = false := by decide
  obtain ⟨hcw, hch⟩ := calc_gantt_wh "gantt" none none (by decide) (by decide)
  have ht : ¬ (15 < countTimelineEntries (jsSplitLines "gantt")) := by decide
  have hgd : ganttDims (countTimelineEntries (jsSplitLines "gantt"))
      (jsOrQ none defaultWidth, jsOrQ none defaultHeight) = (3200, 3200 / 3) := by
    simp only [ganttDims]
    rw [if_neg ht]
    have hmax : max (jsOrQ none defaultWidth) (3200 : ℚ) = 3200 := by
      rw [max_eq_right]
      norm_num [jsOrQ, defaultWidth]
    simp only [hmax]
  have hwv : (calculateOptimalDimensions "gantt" none none).width = 3200 := by
    rw [hcw, hgd]
    exact clampQ_eq _ _ _ (by rw [minWidth]; norm_num) (by rw [maxWidth]; norm_num)
  have hhv : (calculateOptimalDimensions "gantt" none none).height = 3200 / 3 := by
    rw [hch, hgd]
    exact clampQ_eq _ _ _ (by rw [minHeight]; norm_num) (by rw [maxHeight]; norm_num)
  refine ⟨h1, h2, ?_⟩
  exact (nonflowchart_scaleFactor "gantt" none none h1 h2).2
    (by rw [hwv, hhv]; norm_num)

end MermaidConv
